import Mathlib

/-!
Shallow embedding of the device-scoped JWT authentication layer of
`backend/routers/auth.py` (FastAPI + SQLAlchemy + python-jose), together with
the `users`/`devices` data model.

Modelling conventions:
* timestamps are `Nat` (seconds since the epoch); `datetime.now(timezone.utc)`
  becomes an explicit `now : Nat` parameter threaded into each handler;
* `str(uuid.uuid4())` and `secrets.token_urlsafe(32)` become draws from a
  counter-indexed supply (`uuidGen` / `secretGen`) threaded as `ctr : Nat`;
* the HMAC-SHA256 signature of python-jose is idealized as a collision-free
  MAC: a token records the exact payload/key pair it was signed over, and
  signature verification checks that pair against the presented payload and
  the candidate key;
* a SQLAlchemy `Session` is a pair of database states: `committed` (what the
  store durably holds) and `pending` (what this session's queries see);
  `commit` publishes `pending`, `rollback` discards it.  Reads never fail;
  each `db.commit()` site takes an explicit fault flag modelling a storage
  error raised at that commit (the only write points of these handlers).
-/

namespace Pentora

/-- A row of the `users` table (`database.py`, class `User`), restricted to the
columns the auth router reads or writes. -/
structure DBUser where
  id : String
  username : String
  email : String
  tier : String
  subscription_valid_until : Option Nat
  last_tool_run_at : Option Nat
  created_at : Nat
  updated_at : Nat
deriving Repr, DecidableEq

/-- A row of the `devices` table.  The ORM class `Device` imported by
`auth.py` is not shipped under `src/`; its columns are reconstructed from the
alembic migration `add_device_table.py` and from every constructor call in
`auth.py` (the internal primary key `id` is never consulted by the auth logic
and is omitted). -/
structure DBDevice where
  device_id : String
  device_name : String
  device_type : String
  jwt_secret_key : String
  user_id : String
  is_active : Bool
  last_used_at : Nat
  created_at : Nat
  updated_at : Nat
deriving Repr, DecidableEq

/-- The relational store, rows in insertion order (matching the unordered
`SELECT ... LIMIT 1` of `.first()` on SQLite/MySQL default iteration). -/
structure DB where
  users : List DBUser
  devices : List DBDevice
deriving Repr, DecidableEq

/-- A request-scoped SQLAlchemy session: `committed` is the durable store,
`pending` is the state this session's queries observe (its own uncommitted
writes included). -/
structure Session where
  committed : DB
  pending : DB
deriving Repr, DecidableEq

/-- `get_db()` hands each request a fresh session over the current store. -/
def Session.fresh (db : DB) : Session := ⟨db, db⟩

/-- `db.commit()`: publish pending writes; `fault = true` models the commit
raising a storage error (leaving the durable state unchanged). -/
def Session.commit (s : Session) (fault : Bool) : Except Unit Session :=
  if fault then .error () else .ok { s with committed := s.pending }

/-- `db.rollback()`: discard uncommitted writes. -/
def Session.rollback (s : Session) : Session := { s with pending := s.committed }

/-- `str(uuid.uuid4())`, modelled as the `n`-th draw of a fresh-identifier
supply. -/
def uuidGen (n : Nat) : String := "uuid-" ++ toString n

/-- `secrets.token_urlsafe(32)`, modelled as the `n`-th draw of a fresh
high-entropy secret supply. -/
def secretGen (n : Nat) : String := "secret-" ++ toString n

/-- `config.py`: `JWT_ACCESS_TOKEN_EXPIRE_DAYS = 7`. -/
def JWT_ACCESS_TOKEN_EXPIRE_DAYS : Nat := 7

/-- Seconds in a day, to express `timedelta(days = ...)` over `Nat` time. -/
def daySeconds : Nat := 86400

/-- The JWT payload built by `create_device_specific_jwt`: claims
`sub`, `device_id`, `iat`, `exp`.  `sub`/`device_id` are `Option` because
`payload.get(...)` on a token lacking them yields `None`. -/
structure Claims where
  sub : Option String
  device_id : Option String
  iat : Nat
  exp : Nat
deriving Repr, DecidableEq

/-- A serialized JWT.  `claims` is the (attacker-rewritable) payload carried
in the token; `mac` is the idealized HMAC-SHA256 tag: the exact payload/key
pair the signature was computed over.  A genuine token has
`mac = (claims, signingKey)`; rewriting a claim leaves `mac` fixed. -/
structure Token where
  claims : Claims
  mac : Claims × String
deriving Repr, DecidableEq

/-- The two ways `jose.jwt.decode` with verification can reject a token
(`JWTError`; `ExpiredSignatureError` is a `JWTError` subclass). -/
inductive JWTError
  | invalidSignature
  | expired
deriving Repr, DecidableEq

/-- `jwt.encode(payload, secret, algorithm = HS256)`. -/
def jwtEncode (payload : Claims) (secret : String) : Token :=
  ⟨payload, (payload, secret)⟩

/-- `jwt.decode(token, options = skip signature verification)`: returns the
claims with no trust established. -/
def jwtDecodeUnverified (t : Token) : Claims := t.claims

/-- `jwt.decode(token, secret, algorithms = [HS256])`: verify the HMAC tag
against the presented payload and `secret`, then the `exp` claim against the
current time (jose rejects exactly when `exp < now`, zero leeway). -/
def jwtDecode (t : Token) (secret : String) (now : Nat) : Except JWTError Claims :=
  if t.mac = (t.claims, secret) then
    if t.claims.exp < now then .error .expired else .ok t.claims
  else .error .invalidSignature

/-- `create_device_specific_jwt(user_id, device_id, device_secret,
expires_delta)`: build the claim set and sign it with the device secret.
`expires_delta = none` models the default 7-day expiry. -/
def create_device_specific_jwt (user_id device_id device_secret : String)
    (now : Nat) (expires_delta : Option Nat) : Token :=
  let expire := now + expires_delta.getD (JWT_ACCESS_TOKEN_EXPIRE_DAYS * daySeconds)
  jwtEncode { sub := some user_id, device_id := some device_id,
              iat := now, exp := expire } device_secret

/-- Python truthiness of an optional string: `None` and `""` are falsy
(the `if not device_id or not user_id` test). -/
def pyFalsy : Option String → Bool
  | none => true
  | some s => s == ""

/-- The row filter of the device queries in `auth.py`:
`device_id == did AND user_id == uid AND is_active == True`. -/
def devMatch (did uid : String) (d : DBDevice) : Bool :=
  d.device_id == did && d.user_id == uid && d.is_active

/-- `db.query(Device).filter(...).first()` over (device_id, user_id, active). -/
def findActiveDevice (db : DB) (did uid : String) : Option DBDevice :=
  db.devices.find? (devMatch did uid)

/-- Mutating `device.last_used_at = now` on the ORM object returned by the
query: update the first matching row, leave the rest untouched. -/
def touchList (did uid : String) (now : Nat) : List DBDevice → List DBDevice
  | [] => []
  | d :: ds =>
    if devMatch did uid d then { d with last_used_at := now } :: ds
    else d :: touchList did uid now ds

/-- Database state after `device.last_used_at = now` on the first row
matching (did, uid, active). -/
def touchDB (db : DB) (did uid : String) (now : Nat) : DB :=
  { db with devices := touchList did uid now db.devices }

/-- `db.query(User).filter(User.id == uid).first()`. -/
def findUserById (db : DB) (uid : String) : Option DBUser :=
  db.users.find? (fun u => u.id == uid)

/-- `db.query(User).filter(User.email == email).first()`. -/
def findUserByEmail (db : DB) (email : String) : Option DBUser :=
  db.users.find? (fun u => u.email == email)

/-- Append a user row (`db.add(user)` as seen by this session). -/
def addUser (db : DB) (u : DBUser) : DB := { db with users := db.users ++ [u] }

/-- Append a device row (`db.add(device)` as seen by this session). -/
def addDevice (db : DB) (d : DBDevice) : DB :=
  { db with devices := db.devices ++ [d] }

/-- The distinct failure points inside the `try` block of
`verify_device_token`, before its `except` clauses rewrite them:
`invalidFormat` / `deviceNotFound` are the two `HTTPException` raise sites,
`jwtFail` is a `JWTError` escaping `jwt.decode`, `storageError` is the final
`db.commit()` raising. -/
inductive VerifyError
  | invalidFormat
  | deviceNotFound
  | jwtFail (e : JWTError)
  | storageError
deriving Repr, DecidableEq

/-- The `try` block of `verify_device_token(token, db)`, returning the error
of the raise site that fires (its `except` clauses are applied by
`verify_device_token` below).  Protocol, in source order: unverified decode;
falsy-field check; active-device lookup keyed by the unverified
(device_id, sub); verified decode against the looked-up device's secret;
update of the device's `last_used_at`; commit. -/
def verify_device_token_body (t : Token) (s : Session) (now : Nat)
    (cf : Bool) : Except VerifyError (Claims × Session) :=
  let payload := jwtDecodeUnverified t
  if pyFalsy payload.device_id || pyFalsy payload.sub then
    .error .invalidFormat
  else
    let did := payload.device_id.getD ""
    let uid := payload.sub.getD ""
    match findActiveDevice s.pending did uid with
    | none => .error .deviceNotFound
    | some device =>
      match jwtDecode t device.jwt_secret_key now with
      | .error e => .error (.jwtFail e)
      | .ok verified =>
        let s' : Session := { s with pending := touchDB s.pending did uid now }
        match s'.commit cf with
        | .error _ => .error .storageError
        | .ok s'' => .ok (verified, s'')

/-- The caller-visible authentication/HTTP errors of the router, one per
`HTTPException` raise site that can actually escape a handler. -/
inductive AuthError
  | authRequired
  | invalidToken
  | verificationFailed
  | userNotFound
  | emailTaken
  | internalRegister
  | internalLogin
  | internalAutoConnect
  | internalAutoLogin
  | internalGeneric
deriving Repr, DecidableEq

/-- HTTP status code of each escaping `HTTPException`. -/
def AuthError.status : AuthError → Nat
  | .emailTaken => 400
  | .internalRegister => 500
  | .internalLogin => 500
  | .internalAutoConnect => 500
  | .internalAutoLogin => 500
  | .internalGeneric => 500
  | _ => 401

/-- The `detail` string of each escaping `HTTPException` — the response body
content delivered to the caller. -/
def AuthError.detail : AuthError → String
  | .authRequired => "Authorization token required"
  | .invalidToken => "Invalid token"
  | .verificationFailed => "Token verification failed"
  | .userNotFound => "User not found"
  | .emailTaken => "Email already registered"
  | .internalRegister => "An internal server error occurred during registration"
  | .internalLogin => "An internal server error occurred during login"
  | .internalAutoConnect => "An internal server error occurred during auto-connect"
  | .internalAutoLogin => "An internal server error occurred during auto-login"
  | .internalGeneric => "An internal server error occurred"

/-- The (status, body detail) pair the caller observes for an error. -/
def response (e : AuthError) : Nat × String := (e.status, e.detail)

/-- `verify_device_token(token, db)` as its caller observes it: the `try`
body with the `except` clauses applied.  `except JWTError` maps signature and
expiry failures to 401 "Invalid token"; the trailing `except Exception`
catches everything else — including the two `HTTPException`s raised inside
the `try` block, since FastAPI's `HTTPException` subclasses `Exception` — and
re-raises 401 "Token verification failed". -/
def verify_device_token (t : Token) (s : Session) (now : Nat) (cf : Bool) :
    Except AuthError (Claims × Session) :=
  match verify_device_token_body t s now cf with
  | .ok r => .ok r
  | .error (.jwtFail _) => .error .invalidToken
  | .error .invalidFormat => .error .verificationFailed
  | .error .deviceNotFound => .error .verificationFailed
  | .error .storageError => .error .verificationFailed

/-- The `Authorization` header as `get_current_user` discriminates it:
absent, present but not of the form `Bearer <token>`, or a bearer token. -/
inductive AuthHeader
  | missing
  | nonBearer
  | bearer (t : Token)

/-- A Python value stored in the `current_user` dict: a string, a datetime
(`dt`), or `None`. -/
inductive PyVal
  | str (s : String)
  | dt (n : Nat)
  | noneV
deriving Repr, DecidableEq

/-- A Python dict with string keys, as an association list (keys unique in
every dict this code builds). -/
abbrev Dict := List (String × PyVal)

/-- `d.get(k)` / `d[k]`. -/
def Dict.get? (d : Dict) (k : String) : Option PyVal :=
  (List.find? (fun kv => kv.1 == k) d).map (fun kv => kv.2)

/-- `d.pop(k, None)`: remove the key if present. -/
def Dict.pop (d : Dict) (k : String) : Dict :=
  List.filter (fun kv => kv.1 != k) d

/-- Encode an `Option Nat` datetime column as the dict value it is read into. -/
def optDt : Option Nat → PyVal
  | none => .noneV
  | some n => .dt n

/-- `get_current_user(authorization, db)`: require a `Bearer` header, run
`verify_device_token` (its `HTTPException`s re-raised unchanged by
`except HTTPException: raise`), re-check the verified `sub`/`device_id` for
falsiness, load the user row by id, and build the request-context dict —
`device_id` included for internal use. -/
def get_current_user (authorization : AuthHeader) (s : Session) (now : Nat)
    (cf : Bool) : Except AuthError (Dict × Session) :=
  match authorization with
  | .missing => .error .authRequired
  | .nonBearer => .error .authRequired
  | .bearer t =>
    match verify_device_token t s now cf with
    | .error e => .error e
    | .ok (payload, s') =>
      if pyFalsy payload.sub || pyFalsy payload.device_id then
        .error .invalidToken
      else
        let uid := payload.sub.getD ""
        let did := payload.device_id.getD ""
        match findUserById s'.pending uid with
        | none => .error .userNotFound
        | some user =>
          .ok ([("id", .str user.id),
                ("username", .str user.username),
                ("email", .str user.email),
                ("tier", .str user.tier),
                ("subscription_valid_until", optDt user.subscription_valid_until),
                ("last_tool_run_at", optDt user.last_tool_run_at),
                ("created_at", .dt user.created_at),
                ("updated_at", .dt user.updated_at),
                ("device_id", .str did)], s')

/-- The pydantic `UserResponse` model: the exact field set a success response
serializes (no device identifier field exists on it). -/
structure UserResponse where
  id : String
  username : String
  email : String
  tier : String
  subscription_valid_until : Option String
  created_at : String
deriving Repr, DecidableEq

/-- JSON serialization of a `UserResponse`, as a dict. -/
def UserResponse.toDict (r : UserResponse) : Dict :=
  [("id", .str r.id),
   ("username", .str r.username),
   ("email", .str r.email),
   ("tier", .str r.tier),
   ("subscription_valid_until",
     match r.subscription_valid_until with
     | none => .noneV
     | some s => .str s),
   ("created_at", .str r.created_at)]

/-- The `if hasattr(v, "isoformat"): v = v.isoformat()` normalization applied
by `/auth/me` to one key: datetimes are rendered to strings, other values
(strings, `None`) are left alone (`None` is also filtered out by the
truthiness guard before the `hasattr` test). -/
def isoformatField (d : Dict) (k : String) : Dict :=
  List.map (fun kv =>
    if kv.1 == k then
      match kv.2 with
      | .dt n => (kv.1, PyVal.str (toString n))
      | v => (kv.1, v)
    else kv) d

/-- `UserResponse(**user_data)`: pydantic reads the named fields (extra keys
are ignored), requiring strings for the required fields and string-or-absent
for `subscription_valid_until`; any other shape is a validation error. -/
def mkUserResponse (d : Dict) : Option UserResponse :=
  match d.get? "id", d.get? "username", d.get? "email",
        d.get? "tier", d.get? "created_at" with
  | some (.str i), some (.str un), some (.str em),
    some (.str ti), some (.str ca) =>
    match d.get? "subscription_valid_until" with
    | none => some ⟨i, un, em, ti, none, ca⟩
    | some .noneV => some ⟨i, un, em, ti, none, ca⟩
    | some (.str sv) => some ⟨i, un, em, ti, some sv, ca⟩
    | some (.dt _) => none
  | _, _, _, _, _ => none

/-- `GET /auth/me` (`get_current_user_info`): copy the request-context dict,
isoformat the datetime fields, pop `device_id` (internal use only), and
validate through `UserResponse`; any validation failure is caught and mapped
to the generic 500. -/
def get_current_user_info (current_user : Dict) : Except AuthError UserResponse :=
  let d := isoformatField current_user "created_at"
  let d := isoformatField d "subscription_valid_until"
  let d := Dict.pop d "device_id"
  match mkUserResponse d with
  | some r => .ok r
  | none => .error .internalGeneric

/-- The `TokenResponse` body returned by the token-minting endpoints. -/
structure TokenResponse where
  access_token : Token
  token_type : String
  user : UserResponse
deriving Repr, DecidableEq

/-- The `UserResponse(...)` literal the handlers build from a user row,
isoformatting the datetime columns. -/
def userResponseOf (u : DBUser) : UserResponse :=
  { id := u.id, username := u.username, email := u.email, tier := u.tier,
    subscription_valid_until := u.subscription_valid_until.map toString,
    created_at := toString u.created_at }

/-- `get_or_create_device_for_fingerprint(fingerprint, name, type, user_id,
db)`: look up an active device for (fingerprint, user); touch and commit if
found, otherwise create one with a fresh secret, using the fingerprint itself
as `device_id`.  On error the exception propagates to the caller; the
returned `Nat` on error is the secret-supply counter already consumed. -/
def get_or_create_device_for_fingerprint
    (device_fingerprint device_name device_type user_id : String)
    (s : Session) (now ctr : Nat) (cf : Bool) :
    Except Nat (DBDevice × Session × Nat) :=
  match findActiveDevice s.pending device_fingerprint user_id with
  | some existing =>
    let s' : Session :=
      { s with pending := touchDB s.pending device_fingerprint user_id now }
    match s'.commit cf with
    | .error _ => .error ctr
    | .ok s'' => .ok ({ existing with last_used_at := now }, s'', ctr)
  | none =>
    let device_secret := secretGen ctr
    let d : DBDevice :=
      { device_id := device_fingerprint, device_name := device_name,
        device_type := device_type, jwt_secret_key := device_secret,
        user_id := user_id, is_active := true, last_used_at := now,
        created_at := now, updated_at := now }
    let s' : Session := { s with pending := addDevice s.pending d }
    match s'.commit cf with
    | .error _ => .error (ctr + 1)
    | .ok s'' => .ok (d, s'', ctr + 1)

/-- `POST /auth/register`: reject a taken email with 400 before any write;
otherwise create and commit the user row, then create and commit a device
row with a server-generated UUID `device_id` and fresh secret, and mint the
token.  Each handler returns (result, durable store after the request's
session is closed, supply counter); on an exception the handler rolls back —
which discards only uncommitted writes — and maps the error to its 500.
`cf1`/`cf2` are the fault flags of the two commit sites in source order. -/
def register (username email : String) (db : DB) (now ctr : Nat)
    (cf1 cf2 : Bool) : Except AuthError TokenResponse × DB × Nat :=
  let s := Session.fresh db
  match findUserByEmail s.pending email with
  | some _ => (.error .emailTaken, db, ctr)
  | none =>
    let user_id := uuidGen ctr
    let u : DBUser :=
      { id := user_id, username := username, email := email,
        tier := "essential", subscription_valid_until := none,
        last_tool_run_at := none, created_at := now, updated_at := now }
    let s₁ : Session := { s with pending := addUser s.pending u }
    match s₁.commit cf1 with
    | .error _ => (.error .internalRegister, db, ctr + 1)
    | .ok s₂ =>
      let device_id := uuidGen (ctr + 1)
      let device_secret := secretGen (ctr + 2)
      let d : DBDevice :=
        { device_id := device_id, device_name := "Web Browser",
          device_type := "web", jwt_secret_key := device_secret,
          user_id := user_id, is_active := true, last_used_at := now,
          created_at := now, updated_at := now }
      let s₃ : Session := { s₂ with pending := addDevice s₂.pending d }
      match s₃.commit cf2 with
      | .error _ => (.error .internalRegister, s₂.committed, ctr + 3)
      | .ok s₄ =>
        let access_token :=
          create_device_specific_jwt user_id device_id device_secret now none
        (.ok { access_token := access_token, token_type := "bearer",
               user := userResponseOf u }, s₄.committed, ctr + 3)

/-- `POST /auth/login`: look the user up by email; if absent, delegate to
`register` (auto-registration); otherwise mint a brand-new device (fresh
UUID `device_id`, fresh secret), commit it, and return a token for it. -/
def login (username email : String) (db : DB) (now ctr : Nat)
    (cf1 cf2 : Bool) : Except AuthError TokenResponse × DB × Nat :=
  let s := Session.fresh db
  match findUserByEmail s.pending email with
  | none => register username email db now ctr cf1 cf2
  | some user =>
    let device_id := uuidGen ctr
    let device_secret := secretGen (ctr + 1)
    let d : DBDevice :=
      { device_id := device_id, device_name := "Web Browser",
        device_type := "web", jwt_secret_key := device_secret,
        user_id := user.id, is_active := true, last_used_at := now,
        created_at := now, updated_at := now }
    let s₁ : Session := { s with pending := addDevice s.pending d }
    match s₁.commit cf1 with
    | .error _ => (.error .internalLogin, db, ctr + 2)
    | .ok s₂ =>
      let access_token :=
        create_device_specific_jwt user.id device_id device_secret now none
      (.ok { access_token := access_token, token_type := "bearer",
             user := userResponseOf user }, s₂.committed, ctr + 2)

/-- `POST /auth/auto-connect`: if any user exists (`query(User).first()`),
resolve or create the device for the supplied fingerprint under that user;
otherwise first create and commit a "Demo User", then resolve the device.
Any exception triggers rollback (discarding uncommitted writes only) and the
generic 500. -/
def auto_connect (device_fingerprint device_name device_type : String)
    (db : DB) (now ctr : Nat) (cf1 cf2 : Bool) :
    Except AuthError TokenResponse × DB × Nat :=
  let s := Session.fresh db
  match s.pending.users.head? with
  | some existing_user =>
    match get_or_create_device_for_fingerprint device_fingerprint device_name
        device_type existing_user.id s now ctr cf1 with
    | .error ctr' => (.error .internalAutoConnect, db, ctr')
    | .ok (device, s', ctr') =>
      let access_token := create_device_specific_jwt existing_user.id
        device.device_id device.jwt_secret_key now none
      (.ok { access_token := access_token, token_type := "bearer",
             user := userResponseOf existing_user }, s'.committed, ctr')
  | none =>
    let user_id := uuidGen ctr
    let u : DBUser :=
      { id := user_id, username := "Demo User", email := "demo@example.com",
        tier := "essential", subscription_valid_until := none,
        last_tool_run_at := none, created_at := now, updated_at := now }
    let s₁ : Session := { s with pending := addUser s.pending u }
    match s₁.commit cf1 with
    | .error _ => (.error .internalAutoConnect, db, ctr + 1)
    | .ok s₂ =>
      match get_or_create_device_for_fingerprint device_fingerprint
          device_name device_type user_id s₂ now (ctr + 1) cf2 with
      | .error ctr' => (.error .internalAutoConnect, s₂.committed, ctr')
      | .ok (device, s₃, ctr') =>
        let access_token := create_device_specific_jwt user_id
          device.device_id device.jwt_secret_key now none
        (.ok { access_token := access_token, token_type := "bearer",
               user := userResponseOf u }, s₃.committed, ctr')

/-- `POST /auto-login`: always mint a brand-new device (fresh UUID
`device_id`, fresh secret) for the first existing user, creating a
"Demo User" first when the store has none. -/
def auto_login (db : DB) (now ctr : Nat) (cf1 cf2 : Bool) :
    Except AuthError TokenResponse × DB × Nat :=
  let s := Session.fresh db
  match s.pending.users.head? with
  | some existing_user =>
    let device_id := uuidGen ctr
    let device_secret := secretGen (ctr + 1)
    let d : DBDevice :=
      { device_id := device_id, device_name := "Web Browser",
        device_type := "web", jwt_secret_key := device_secret,
        user_id := existing_user.id, is_active := true, last_used_at := now,
        created_at := now, updated_at := now }
    let s₁ : Session := { s with pending := addDevice s.pending d }
    match s₁.commit cf1 with
    | .error _ => (.error .internalAutoLogin, db, ctr + 2)
    | .ok s₂ =>
      let access_token := create_device_specific_jwt existing_user.id
        device_id device_secret now none
      (.ok { access_token := access_token, token_type := "bearer",
             user := userResponseOf existing_user }, s₂.committed, ctr + 2)
  | none =>
    let user_id := uuidGen ctr
    let u : DBUser :=
      { id := user_id, username := "Demo User", email := "demo@example.com",
        tier := "essential", subscription_valid_until := none,
        last_tool_run_at := none, created_at := now, updated_at := now }
    let s₁ : Session := { s with pending := addUser s.pending u }
    match s₁.commit cf1 with
    | .error _ => (.error .internalAutoLogin, db, ctr + 1)
    | .ok s₂ =>
      let device_id := uuidGen (ctr + 1)
      let device_secret := secretGen (ctr + 2)
      let d : DBDevice :=
        { device_id := device_id, device_name := "Web Browser",
          device_type := "web", jwt_secret_key := device_secret,
          user_id := user_id, is_active := true, last_used_at := now,
          created_at := now, updated_at := now }
      let s₃ : Session := { s₂ with pending := addDevice s₂.pending d }
      match s₃.commit cf2 with
      | .error _ => (.error .internalAutoLogin, s₂.committed, ctr + 3)
      | .ok s₄ =>
        let access_token :=
          create_device_specific_jwt user_id device_id device_secret now none
        (.ok { access_token := access_token, token_type := "bearer",
               user := userResponseOf u }, s₄.committed, ctr + 3)

/-- The number of device rows belonging to a user. -/
def countUserDevices (db : DB) (uid : String) : Nat :=
  (db.devices.filter (fun d => d.user_id == uid)).length

/-! ## Theorems -/

/-- C1: token verification proceeds in strict order: the claims are first
parsed without checking the signature and only `device_id` and `sub` are
extracted — if either is missing (or empty) the call fails with the
invalid-format error, for every signature; otherwise the active device row
matching (device_id, sub) is fetched and the call fails with the
device-not-found error if none exists, again for every signature; otherwise
the same token is validated against the looked-up device's secret and the
expiry, failing with the signature or expiry error as appropriate; only on
success is the device's `last_used_at` updated (and committed) and the
verified claims returned. -/
theorem verify_device_token_protocol (t : Token) (s : Session) (now : Nat) :
    ((pyFalsy t.claims.device_id || pyFalsy t.claims.sub) = true →
      ∀ cf, verify_device_token_body t s now cf = .error .invalidFormat)
    ∧ ∀ did uid, t.claims.device_id = some did → t.claims.sub = some uid →
      did ≠ "" → uid ≠ "" →
      ((findActiveDevice s.pending did uid = none →
          ∀ cf, verify_device_token_body t s now cf = .error .deviceNotFound)
       ∧ ∀ dev, findActiveDevice s.pending did uid = some dev →
           ((t.mac ≠ (t.claims, dev.jwt_secret_key) →
               ∀ cf, verify_device_token_body t s now cf =
                 .error (.jwtFail .invalidSignature))
            ∧ (t.mac = (t.claims, dev.jwt_secret_key) → t.claims.exp < now →
               ∀ cf, verify_device_token_body t s now cf =
                 .error (.jwtFail .expired))
            ∧ (t.mac = (t.claims, dev.jwt_secret_key) → ¬ t.claims.exp < now →
               verify_device_token_body t s now false =
                 .ok (t.claims,
                      ⟨touchDB s.pending did uid now,
                       touchDB s.pending did uid now⟩)))) := by
  constructor
  · intro h cf
    simp [verify_device_token_body, jwtDecodeUnverified, h]
  · intro did uid hdid huid hdne hune
    have hfal : (pyFalsy t.claims.device_id || pyFalsy t.claims.sub) = false := by
      simp [pyFalsy, hdid, huid, hdne, hune]
    constructor
    · intro hnone cf
      simp [verify_device_token_body, jwtDecodeUnverified, pyFalsy, hdid,
        huid, hdne, hune, hnone]
    · intro dev hdev
      refine ⟨?_, ?_, ?_⟩
      · intro hmac cf
        simp [verify_device_token_body, jwtDecodeUnverified, pyFalsy, hdid,
          huid, hdne, hune, hdev, jwtDecode, hmac]
      · intro hmac hexp cf
        simp [verify_device_token_body, jwtDecodeUnverified, pyFalsy, hdid,
          huid, hdne, hune, hdev, jwtDecode, hmac, hexp]
      · intro hmac hexp
        simp [verify_device_token_body, jwtDecodeUnverified, pyFalsy, hdid,
          huid, hdne, hune, hdev, jwtDecode, hmac, hexp, Session.commit]

/-- Witness for C1: on a concrete store holding one active device, a token
signed with that device's secret passes the whole protocol and the device's
`last_used_at` is updated, while a token with no `device_id`/`sub` claims
fails with the invalid-format error. -/
theorem verify_device_token_protocol_witness :
    verify_device_token_body
        ⟨⟨some "u1", some "d1", 10, 110⟩,
         (⟨some "u1", some "d1", 10, 110⟩, "sec1")⟩
        (Session.fresh ⟨[], [⟨"d1", "n", "web", "sec1", "u1", true, 0, 0, 0⟩]⟩)
        50 false =
      .ok (⟨some "u1", some "d1", 10, 110⟩,
           ⟨⟨[], [⟨"d1", "n", "web", "sec1", "u1", true, 50, 0, 0⟩]⟩,
            ⟨[], [⟨"d1", "n", "web", "sec1", "u1", true, 50, 0, 0⟩]⟩⟩)
    ∧ verify_device_token_body ⟨⟨none, none, 0, 0⟩, (⟨none, none, 0, 0⟩, "k")⟩
        (Session.fresh ⟨[], []⟩) 0 false = .error .invalidFormat := by
  constructor
  · have h := (verify_device_token_protocol
      ⟨⟨some "u1", some "d1", 10, 110⟩,
       (⟨some "u1", some "d1", 10, 110⟩, "sec1")⟩
      (Session.fresh ⟨[], [⟨"d1", "n", "web", "sec1", "u1", true, 0, 0, 0⟩]⟩)
      50).2 "d1" "u1" rfl rfl (by decide) (by decide)
    have h' := (h.2 ⟨"d1", "n", "web", "sec1", "u1", true, 0, 0, 0⟩
      (by decide)).2.2 rfl (by decide)
    exact h'.trans rfl
  · exact (verify_device_token_protocol
      ⟨⟨none, none, 0, 0⟩, (⟨none, none, 0, 0⟩, "k")⟩
      (Session.fresh ⟨[], []⟩) 0).1 rfl false

/-- Updating `last_used_at` changes none of the columns the device query
filters on. -/
theorem devMatch_touch (did uid : String) (now : Nat) (d : DBDevice) :
    devMatch did uid { d with last_used_at := now } = devMatch did uid d := rfl

/-- If no row matches, touching the first match is a no-op. -/
theorem touchList_of_find?_none (did uid : String) (now : Nat)
    (l : List DBDevice) (h : l.find? (devMatch did uid) = none) :
    touchList did uid now l = l := by
  induction l with
  | nil => rfl
  | cons d ds ih =>
    rw [List.find?_eq_none] at h
    have hd : ¬ devMatch did uid d = true := h d (List.mem_cons_self d ds)
    simp only [touchList, if_neg hd]
    rw [ih (List.find?_eq_none.2 fun x hx => h x (List.mem_cons_of_mem _ hx))]

/-- After touching the first matching row, the same query finds that row with
its `last_used_at` updated. -/
theorem find?_touchList (did uid : String) (now : Nat)
    (l : List DBDevice) (d : DBDevice)
    (h : l.find? (devMatch did uid) = some d) :
    (touchList did uid now l).find? (devMatch did uid) =
      some { d with last_used_at := now } := by
  induction l with
  | nil => simp at h
  | cons e es ih =>
    by_cases he : devMatch did uid e = true
    · rw [List.find?_cons_of_pos _ he] at h
      cases h
      simp only [touchList, if_pos he]
      exact List.find?_cons_of_pos _ (by rw [devMatch_touch]; exact he)
    · rw [List.find?_cons_of_neg _ he] at h
      simp only [touchList, if_neg he]
      rw [List.find?_cons_of_neg _ he]
      exact ih h

/-- C2: for a registered active device A and a distinct registered active
device B of the same user, a token issued with A's secret whose `device_id`
claim is rewritten to B's identifier fails verification with the
invalid-signature error (delivered as 401 "Invalid token"), not with the
device-not-found error: the lookup succeeds because B exists, but the MAC was
computed with A's secret over A's claims and cannot re-validate. -/
theorem cross_device_rejection (s : Session) (now iat ttl : Nat) (cf : Bool)
    (uid : String) (dA dB : DBDevice)
    (hune : uid ≠ "")
    (hAmem : dA ∈ s.pending.devices) (hAuid : dA.user_id = uid)
    (hAact : dA.is_active = true)
    (hBmem : dB ∈ s.pending.devices) (hBuid : dB.user_id = uid)
    (hBact : dB.is_active = true) (hBne : dB.device_id ≠ "")
    (hne : dA.device_id ≠ dB.device_id) :
    (verify_device_token_body
        { create_device_specific_jwt uid dA.device_id dA.jwt_secret_key iat
            (some ttl) with
          claims := { sub := some uid, device_id := some dB.device_id,
                      iat := iat, exp := iat + ttl } }
        s now cf = .error (.jwtFail .invalidSignature))
    ∧ (verify_device_token
        { create_device_specific_jwt uid dA.device_id dA.jwt_secret_key iat
            (some ttl) with
          claims := { sub := some uid, device_id := some dB.device_id,
                      iat := iat, exp := iat + ttl } }
        s now cf = .error .invalidToken) := by
  have hBmatch : devMatch dB.device_id uid dB = true := by
    simp [devMatch, hBuid, hBact]
  have hfind : ∃ d', findActiveDevice s.pending dB.device_id uid = some d' := by
    cases hcase : findActiveDevice s.pending dB.device_id uid with
    | some d' => exact ⟨d', rfl⟩
    | none =>
      exact absurd hBmatch
        (List.find?_eq_none.1 hcase dB hBmem)
  obtain ⟨d', hd'⟩ := hfind
  have hbody : verify_device_token_body
      { create_device_specific_jwt uid dA.device_id dA.jwt_secret_key iat
          (some ttl) with
        claims := { sub := some uid, device_id := some dB.device_id,
                    iat := iat, exp := iat + ttl } }
      s now cf = .error (.jwtFail .invalidSignature) := by
    have hmac : (Claims.mk (some uid) (some dA.device_id) iat (iat + ttl),
        dA.jwt_secret_key) ≠
        (Claims.mk (some uid) (some dB.device_id) iat (iat + ttl),
        d'.jwt_secret_key) := by
      intro hcontra
      exact hne (by simpa using congrArg (fun p => p.1.device_id) hcontra)
    simp [verify_device_token_body, jwtDecodeUnverified, pyFalsy, hune, hBne,
      create_device_specific_jwt, jwtEncode, hd', jwtDecode, hmac]
  exact ⟨hbody, by simp [verify_device_token, hbody]⟩

/-- Witness for C2: a concrete store with two active devices of one user; the
rewritten token is rejected with the invalid-signature error. -/
theorem cross_device_rejection_witness :
    verify_device_token_body
        { create_device_specific_jwt "u1" "dA" "secA" 0 (some 10) with
          claims := { sub := some "u1", device_id := some "dB",
                      iat := 0, exp := 0 + 10 } }
        (Session.fresh ⟨[], [⟨"dA", "n", "web", "secA", "u1", true, 0, 0, 0⟩,
                             ⟨"dB", "n", "web", "secB", "u1", true, 0, 0, 0⟩]⟩)
        3 false = .error (.jwtFail .invalidSignature) :=
  (cross_device_rejection
    (Session.fresh ⟨[], [⟨"dA", "n", "web", "secA", "u1", true, 0, 0, 0⟩,
                         ⟨"dB", "n", "web", "secB", "u1", true, 0, 0, 0⟩]⟩)
    3 0 10 false "u1"
    ⟨"dA", "n", "web", "secA", "u1", true, 0, 0, 0⟩
    ⟨"dB", "n", "web", "secB", "u1", true, 0, 0, 0⟩
    (by decide) (by decide) rfl rfl (by decide) rfl rfl
    (by decide) (by decide)).1

/-- C3: round trip — verifying the token produced by
`create_device_specific_jwt u d s ttl` against a store whose active-device
lookup for (d, u) yields a row holding the same secret, at a time before the
token's expiry, succeeds and returns the original claims: subject `u` and
device_id `d`. -/
theorem issue_verify_round_trip (u d secret : String) (ttl : Nat)
    (s : Session) (tIssue tVerify : Nat) (dev : DBDevice)
    (hu : u ≠ "") (hd : d ≠ "") (httl : 0 < ttl)
    (hfind : findActiveDevice s.pending d u = some dev)
    (hsecret : dev.jwt_secret_key = secret)
    (hfresh : tVerify < tIssue + ttl) :
    ∃ s', verify_device_token
        (create_device_specific_jwt u d secret tIssue (some ttl)) s tVerify
        false =
      .ok ({ sub := some u, device_id := some d,
             iat := tIssue, exp := tIssue + ttl }, s') := by
  refine ⟨⟨touchDB s.pending d u tVerify, touchDB s.pending d u tVerify⟩, ?_⟩
  have hnexp : ¬ (tIssue + ttl < tVerify) := by omega
  simp [verify_device_token, verify_device_token_body, jwtDecodeUnverified,
    pyFalsy, hu, hd, create_device_specific_jwt, jwtEncode, hfind, jwtDecode,
    hsecret, hnexp, Session.commit]

/-- Witness for C3: the round trip on a concrete one-device store. -/
theorem issue_verify_round_trip_witness :
    ∃ s', verify_device_token
        (create_device_specific_jwt "u1" "d1" "sec1" 10 (some 100))
        (Session.fresh ⟨[], [⟨"d1", "n", "web", "sec1", "u1", true, 0, 0, 0⟩]⟩)
        50 false =
      .ok ({ sub := some "u1", device_id := some "d1",
             iat := 10, exp := 10 + 100 }, s') :=
  issue_verify_round_trip "u1" "d1" "sec1" 100
    (Session.fresh ⟨[], [⟨"d1", "n", "web", "sec1", "u1", true, 0, 0, 0⟩]⟩)
    10 50 ⟨"d1", "n", "web", "sec1", "u1", true, 0, 0, 0⟩
    (by decide) (by decide) (by decide) rfl rfl (by decide)

/-- The errors `verify_device_token` can deliver: 401 "Invalid token" (from
`except JWTError`) or 401 "Token verification failed" (from the catch-all
`except Exception`, which also swallows the format/lookup `HTTPException`s). -/
theorem verify_device_token_error_cases (t : Token) (s : Session) (now : Nat)
    (cf : Bool) (e : AuthError)
    (h : verify_device_token t s now cf = .error e) :
    e = .invalidToken ∨ e = .verificationFailed := by
  unfold verify_device_token at h
  cases hb : verify_device_token_body t s now cf with
  | ok r => rw [hb] at h; cases h
  | error ve =>
    rw [hb] at h
    cases ve with
    | invalidFormat => right; cases h; rfl
    | deviceNotFound => right; cases h; rfl
    | jwtFail e' => left; cases h; rfl
    | storageError => right; cases h; rfl

/-- Inversion of a successful verification: the verified claims are exactly
the token's claims, both looked-up fields were non-falsy, and the session the
caller continues with sees the touched device row. -/
theorem verify_device_token_ok_shape (t : Token) (s : Session) (now : Nat)
    (cf : Bool) (payload : Claims) (s' : Session)
    (h : verify_device_token t s now cf = .ok (payload, s')) :
    payload = t.claims ∧ pyFalsy t.claims.sub = false ∧
    pyFalsy t.claims.device_id = false ∧
    s'.pending = touchDB s.pending (t.claims.device_id.getD "")
      (t.claims.sub.getD "") now := by
  unfold verify_device_token at h
  cases hb : verify_device_token_body t s now cf with
  | error ve => rw [hb] at h; cases ve <;> cases h
  | ok r =>
    rw [hb] at h
    cases h
    unfold verify_device_token_body at hb
    simp only [jwtDecodeUnverified] at hb
    split at hb
    · cases hb
    · next hfal =>
      split at hb
      · cases hb
      · next dev hfind =>
        split at hb
        · cases hb
        · next verified hdec =>
          split at hb
          · cases hb
          · next s2 hcommit =>
            cases hb
            have hver : payload = t.claims := by
              unfold jwtDecode at hdec
              split at hdec
              · split at hdec
                · cases hdec
                · cases hdec; rfl
              · cases hdec
            have hfal' : pyFalsy t.claims.device_id = false ∧
                pyFalsy t.claims.sub = false := by
              rw [Bool.or_eq_true] at hfal
              push_neg at hfal
              exact ⟨Bool.not_eq_true _ |>.mp hfal.1, Bool.not_eq_true _ |>.mp hfal.2⟩
            have hpend : s'.pending = touchDB s.pending
                (t.claims.device_id.getD "") (t.claims.sub.getD "") now := by
              unfold Session.commit at hcommit
              split at hcommit
              · cases hcommit
              · cases hcommit; rfl
            exact ⟨hver, hfal'.2, hfal'.1, hpend⟩

/-- C5 counterexample: two authentication-failure causes — a bad signature on
an existing device versus a token naming a nonexistent device — both return
status 401 but with different bodies ("Invalid token" versus "Token
verification failed"), so the delivered responses are not identical and the
caller can tell whether the device row exists. -/
theorem auth_failure_responses_distinguishable :
    get_current_user
        (.bearer ⟨⟨some "u1", some "d1", 0, 100⟩,
                  (⟨some "u1", some "d1", 0, 100⟩, "forged")⟩)
        (Session.fresh ⟨[⟨"u1", "alice", "a@x", "essential", none, none, 0, 0⟩],
                        [⟨"d1", "n", "web", "sec1", "u1", true, 0, 0, 0⟩]⟩)
        0 false = .error .invalidToken
    ∧ get_current_user
        (.bearer ⟨⟨some "u1", some "dX", 0, 100⟩,
                  (⟨some "u1", some "dX", 0, 100⟩, "sec1")⟩)
        (Session.fresh ⟨[⟨"u1", "alice", "a@x", "essential", none, none, 0, 0⟩],
                        [⟨"d1", "n", "web", "sec1", "u1", true, 0, 0, 0⟩]⟩)
        0 false = .error .verificationFailed
    ∧ response .invalidToken ≠ response .verificationFailed
    ∧ (response .invalidToken).1 = 401
    ∧ (response .verificationFailed).1 = 401 := by
  refine ⟨rfl, rfl, ?_, rfl, rfl⟩
  intro hcontra
  exact absurd (congrArg Prod.snd hcontra) (by decide)

/-- C5 amended: all authentication failures delivered by `get_current_user`
(missing or malformed header, malformed claims, device not found or inactive,
bad signature, expired token, user row absent) carry status 401 — the status
never distinguishes the cause — but the response bodies are not identical
across causes (see the counterexample), so the full responses are
cause-distinguishable. -/
theorem auth_failure_status_uniform (h : AuthHeader) (s : Session) (now : Nat)
    (cf : Bool) (e : AuthError)
    (herr : get_current_user h s now cf = .error e) :
    (response e).1 = 401 := by
  cases h with
  | missing => cases herr; rfl
  | nonBearer => cases herr; rfl
  | bearer t =>
    rcases hv : verify_device_token t s now cf with e' | ⟨payload, s'⟩
    · have hcomp : get_current_user (.bearer t) s now cf = .error e' := by
        simp [get_current_user, hv]
      rw [hcomp] at herr
      cases herr
      rcases verify_device_token_error_cases t s now cf e hv with h' | h' <;>
        rw [h'] <;> rfl
    · by_cases hf : (pyFalsy payload.sub || pyFalsy payload.device_id) = true
      · have hcomp : get_current_user (.bearer t) s now cf =
            .error .invalidToken := by
          simp [get_current_user, hv, hf]
        rw [hcomp] at herr
        cases herr
        rfl
      · rcases hu : findUserById s'.pending (payload.sub.getD "") with _ | user
        · have hcomp : get_current_user (.bearer t) s now cf =
              .error .userNotFound := by
            simp [get_current_user, hv, hf, hu]
          rw [hcomp] at herr
          cases herr
          rfl
        · simp [get_current_user, hv, hf, hu] at herr

/-- Witness for the amended C5: a request with no Authorization header is
rejected with status 401. -/
theorem auth_failure_status_uniform_witness :
    (response .authRequired).1 = 401 :=
  auth_failure_status_uniform .missing (Session.fresh ⟨[], []⟩) 0 false
    .authRequired rfl

/-- C10: passing token verification is necessary but not sufficient.  If
`verify_device_token` succeeds but no user row with the token's subject
exists at request time, the request fails with the 401 user-not-found error;
and whenever `get_current_user` succeeds, a user row matching the token's
subject exists and the exposed context is built from it. -/
theorem verification_necessary_not_sufficient (t : Token) (s : Session)
    (now : Nat) (cf : Bool) :
    (∀ payload s', verify_device_token t s now cf = .ok (payload, s') →
       findUserById s'.pending (payload.sub.getD "") = none →
       get_current_user (.bearer t) s now cf = .error .userNotFound ∧
       (response .userNotFound).1 = 401)
    ∧ (∀ d s', get_current_user (.bearer t) s now cf = .ok (d, s') →
       ∃ uid u, t.claims.sub = some uid ∧
         findUserById s'.pending uid = some u ∧
         Dict.get? d "id" = some (.str u.id)) := by
  constructor
  · intro payload s' hv hu
    obtain ⟨hpay, hsub, hdid, -⟩ :=
      verify_device_token_ok_shape t s now cf payload s' hv
    have hf : (pyFalsy payload.sub || pyFalsy payload.device_id) = false := by
      rw [hpay, hsub, hdid]; rfl
    refine ⟨?_, rfl⟩
    simp [get_current_user, hv, hf, hu]
  · intro d s' h
    rcases hv : verify_device_token t s now cf with e' | ⟨payload, s₂⟩
    · simp [get_current_user, hv] at h
    · obtain ⟨hpay, hsub, hdid, -⟩ :=
        verify_device_token_ok_shape t s now cf payload s₂ hv
      have hf : (pyFalsy payload.sub || pyFalsy payload.device_id) = false := by
        rw [hpay, hsub, hdid]; rfl
      rcases hu : findUserById s₂.pending (payload.sub.getD "") with _ | user
      · simp [get_current_user, hv, hf, hu] at h
      · have hcomp : get_current_user (.bearer t) s now cf =
            .ok ([("id", .str user.id),
                  ("username", .str user.username),
                  ("email", .str user.email),
                  ("tier", .str user.tier),
                  ("subscription_valid_until", optDt user.subscription_valid_until),
                  ("last_tool_run_at", optDt user.last_tool_run_at),
                  ("created_at", .dt user.created_at),
                  ("updated_at", .dt user.updated_at),
                  ("device_id", .str (payload.device_id.getD ""))], s₂) := by
          simp [get_current_user, hv, hf, hu]
        rw [hcomp] at h
        cases h
        rcases hsubval : t.claims.sub with _ | uid
        · rw [hsubval] at hsub
          cases hsub
        · refine ⟨uid, user, rfl, ?_, rfl⟩
          rw [hpay, hsubval] at hu
          exact hu

/-- Witness for C10: a store holding an active device but no user row for the
token's subject — verification succeeds, yet the request is rejected with the
401 user-not-found error. -/
theorem verification_necessary_not_sufficient_witness :
    get_current_user
        (.bearer ⟨⟨some "u1", some "d1", 0, 100⟩,
                  (⟨some "u1", some "d1", 0, 100⟩, "sec1")⟩)
        (Session.fresh ⟨[], [⟨"d1", "n", "web", "sec1", "u1", true, 0, 0, 0⟩]⟩)
        0 false = .error .userNotFound ∧
    (response .userNotFound).1 = 401 :=
  (verification_necessary_not_sufficient
    ⟨⟨some "u1", some "d1", 0, 100⟩, (⟨some "u1", some "d1", 0, 100⟩, "sec1")⟩
    (Session.fresh ⟨[], [⟨"d1", "n", "web", "sec1", "u1", true, 0, 0, 0⟩]⟩)
    0 false).1 ⟨some "u1", some "d1", 0, 100⟩
    ⟨⟨[], [⟨"d1", "n", "web", "sec1", "u1", true, 0, 0, 0⟩]⟩,
     ⟨[], [⟨"d1", "n", "web", "sec1", "u1", true, 0, 0, 0⟩]⟩⟩
    rfl rfl

/-- Filtering a dict by key commutes with any key-preserving entry map. -/
theorem filter_key_map (g : String × PyVal → String × PyVal)
    (hg : ∀ kv, (g kv).1 = kv.1) (p : String → Bool) (l : Dict) :
    List.filter (fun kv => p kv.1) (List.map g l) =
      List.map g (List.filter (fun kv => p kv.1) l) := by
  rw [List.filter_map]
  congr 1
  apply List.filter_congr
  intro kv _
  simp only [Function.comp]
  rw [hg]

/-- Popping a key commutes with isoformat normalization of any key. -/
theorem isoformatField_pop (d : Dict) (k k' : String) :
    isoformatField (Dict.pop d k') k = Dict.pop (isoformatField d k) k' := by
  unfold isoformatField Dict.pop
  refine (filter_key_map _ ?_ (fun s => s != k') d).symm
  intro kv
  by_cases h : (kv.1 == k) = true
  · simp only [h, if_true]
    cases kv.2 <;> rfl
  · simp [h]

/-- Popping a key twice is the same as popping it once. -/
theorem pop_pop (d : Dict) (k : String) :
    Dict.pop (Dict.pop d k) k = Dict.pop d k := by
  unfold Dict.pop
  rw [List.filter_filter]
  apply List.filter_congr
  intro kv _
  cases h : (kv.1 != k) <;> rfl

/-- C8: the `/auth/me` response never carries a device identifier.  On every
successful `get_current_user`, the internal request-context dict does hold
the `device_id` extracted from the verified claims; but `get_current_user_info`
computes the same response whether or not that entry is present (it pops it
before validation), and the serialized `UserResponse` of any success contains
no `device_id` key. -/
theorem me_response_strips_device_id (t : Token) (s : Session) (now : Nat)
    (cf : Bool) :
    (∀ d s', get_current_user (.bearer t) s now cf = .ok (d, s') →
       Dict.get? d "device_id" = some (.str (t.claims.device_id.getD "")))
    ∧ (∀ d : Dict, get_current_user_info d =
        get_current_user_info (Dict.pop d "device_id"))
    ∧ (∀ d : Dict, ∀ r : UserResponse, get_current_user_info d = .ok r →
        Dict.get? r.toDict "device_id" = none) := by
  refine ⟨?_, ?_, ?_⟩
  · intro d s' h
    rcases hv : verify_device_token t s now cf with e' | ⟨payload, s₂⟩
    · simp [get_current_user, hv] at h
    · obtain ⟨hpay, hsub, hdid, -⟩ :=
        verify_device_token_ok_shape t s now cf payload s₂ hv
      have hf : (pyFalsy payload.sub || pyFalsy payload.device_id) = false := by
        rw [hpay, hsub, hdid]; rfl
      rcases hu : findUserById s₂.pending (payload.sub.getD "") with _ | user
      · simp [get_current_user, hv, hf, hu] at h
      · have hcomp : get_current_user (.bearer t) s now cf =
            .ok ([("id", .str user.id),
                  ("username", .str user.username),
                  ("email", .str user.email),
                  ("tier", .str user.tier),
                  ("subscription_valid_until", optDt user.subscription_valid_until),
                  ("last_tool_run_at", optDt user.last_tool_run_at),
                  ("created_at", .dt user.created_at),
                  ("updated_at", .dt user.updated_at),
                  ("device_id", .str (payload.device_id.getD ""))], s₂) := by
          simp [get_current_user, hv, hf, hu]
        rw [hcomp] at h
        cases h
        rw [hpay]
        rfl
  · intro d
    simp only [get_current_user_info]
    rw [isoformatField_pop, isoformatField_pop, pop_pop]
  · intro d r h
    rfl

/-- Witness for C8: on a concrete request-context dict carrying a
`device_id`, `/auth/me` succeeds and its serialized response has no
`device_id` key. -/
theorem me_response_strips_device_id_witness :
    get_current_user_info
        [("id", .str "u1"), ("username", .str "alice"), ("email", .str "a@x"),
         ("tier", .str "essential"), ("subscription_valid_until", .noneV),
         ("last_tool_run_at", .noneV), ("created_at", .dt 0),
         ("updated_at", .dt 0), ("device_id", .str "d1")] =
      .ok ⟨"u1", "alice", "a@x", "essential", none, "0"⟩
    ∧ Dict.get?
        (UserResponse.toDict ⟨"u1", "alice", "a@x", "essential", none, "0"⟩)
        "device_id" = none :=
  ⟨rfl,
   (me_response_strips_device_id ⟨⟨none, none, 0, 0⟩, (⟨none, none, 0, 0⟩, "")⟩
      (Session.fresh ⟨[], []⟩) 0 false).2.2
     [("id", .str "u1"), ("username", .str "alice"), ("email", .str "a@x"),
      ("tier", .str "essential"), ("subscription_valid_until", .noneV),
      ("last_tool_run_at", .noneV), ("created_at", .dt 0),
      ("updated_at", .dt 0), ("device_id", .str "d1")]
     ⟨"u1", "alice", "a@x", "essential", none, "0"⟩ rfl⟩

/-- Adding a user row does not change what the device query sees. -/
theorem findActiveDevice_addUser (db : DB) (u : DBUser) (did uid : String) :
    findActiveDevice (addUser db u) did uid = findActiveDevice db did uid := rfl

/-- C4 counterexample: on an empty store, `register` with a fault at its
second commit (the device commit) surfaces the 500 error, yet the store
afterwards contains the user row created by the call — `register` commits the
user before creating the device, and the rollback in its exception handler
cannot undo a commit, so partial user/device creation persists. -/
theorem rollback_partial_persistence_cex :
    (register "alice" "a@x" ⟨[], []⟩ 0 0 false true).1 =
      .error .internalRegister
    ∧ (register "alice" "a@x" ⟨[], []⟩ 0 0 false true).2.1 =
      ⟨[⟨uuidGen 0, "alice", "a@x", "essential", none, none, 0, 0⟩], []⟩ :=
  ⟨rfl, rfl⟩

/-- C4 amended: when `register`, `login` or `auto-connect` surfaces an error,
all uncommitted changes are rolled back, so no device row created by the call
ever persists; but a user row committed earlier in the same call (the first
commit of `register` and of first-visitor `auto-connect`) does persist, so
the store afterwards is either unchanged or extended by exactly that one user
row. -/
theorem rollback_on_failure (username email f dn dt : String) (db : DB)
    (now ctr : Nat) (cf1 cf2 : Bool) :
    (∀ e db' ctr',
      register username email db now ctr cf1 cf2 = (.error e, db', ctr') →
      db'.devices = db.devices ∧
      (db'.users = db.users ∨ ∃ u, db'.users = db.users ++ [u]))
    ∧ (∀ e db' ctr',
      login username email db now ctr cf1 cf2 = (.error e, db', ctr') →
      db'.devices = db.devices ∧
      (db'.users = db.users ∨ ∃ u, db'.users = db.users ++ [u]))
    ∧ (∀ e db' ctr',
      auto_connect f dn dt db now ctr cf1 cf2 = (.error e, db', ctr') →
      db'.devices = db.devices ∧
      (db'.users = db.users ∨ ∃ u, db'.users = db.users ++ [u])) := by
  have hreg : ∀ e db' ctr',
      register username email db now ctr cf1 cf2 = (.error e, db', ctr') →
      db'.devices = db.devices ∧
      (db'.users = db.users ∨ ∃ u, db'.users = db.users ++ [u]) := by
    intro e db' ctr' h
    rcases hmail : findUserByEmail db email with _ | u0
    · cases cf1
      · cases cf2
        · simp [register, Session.fresh, Session.commit, hmail] at h
        · simp [register, Session.fresh, Session.commit, hmail, addUser,
            addDevice] at h
          obtain ⟨-, h2, -⟩ := h
          rw [← h2]
          exact ⟨rfl, .inr ⟨_, rfl⟩⟩
      · simp [register, Session.fresh, Session.commit, hmail] at h
        obtain ⟨-, h2, -⟩ := h
        rw [← h2]
        exact ⟨rfl, .inl rfl⟩
    · simp [register, Session.fresh, hmail] at h
      obtain ⟨-, h2, -⟩ := h
      rw [← h2]
      exact ⟨rfl, .inl rfl⟩
  refine ⟨hreg, ?_, ?_⟩
  · intro e db' ctr' h
    rcases hmail : findUserByEmail db email with _ | user
    · have hdel : login username email db now ctr cf1 cf2 =
          register username email db now ctr cf1 cf2 := by
        simp [login, Session.fresh, hmail]
      rw [hdel] at h
      exact hreg e db' ctr' h
    · cases cf1
      · simp [login, Session.fresh, Session.commit, hmail] at h
      · simp [login, Session.fresh, Session.commit, hmail] at h
        obtain ⟨-, h2, -⟩ := h
        rw [← h2]
        exact ⟨rfl, .inl rfl⟩
  · intro e db' ctr' h
    rcases hhead : db.users.head? with _ | u0
    · cases cf1
      · cases cf2
        · rcases hfind : findActiveDevice db f (uuidGen ctr) with _ | d0 <;>
            simp [auto_connect, get_or_create_device_for_fingerprint,
              Session.fresh, Session.commit, hhead, hfind,
              findActiveDevice_addUser] at h
        · rcases hfind : findActiveDevice db f (uuidGen ctr) with _ | d0 <;>
            simp [auto_connect, get_or_create_device_for_fingerprint,
              Session.fresh, Session.commit, hhead, hfind,
              findActiveDevice_addUser] at h <;>
            obtain ⟨-, h2, -⟩ := h <;>
            rw [← h2] <;>
            exact ⟨rfl, .inr ⟨_, rfl⟩⟩
      · simp [auto_connect, Session.fresh, Session.commit, hhead] at h
        obtain ⟨-, h2, -⟩ := h
        rw [← h2]
        exact ⟨rfl, .inl rfl⟩
    · cases cf1
      · rcases hfind : findActiveDevice db f u0.id with _ | d0 <;>
          simp [auto_connect, get_or_create_device_for_fingerprint,
            Session.fresh, Session.commit, hhead, hfind] at h
      · rcases hfind : findActiveDevice db f u0.id with _ | d0 <;>
          simp [auto_connect, get_or_create_device_for_fingerprint,
            Session.fresh, Session.commit, hhead, hfind] at h <;>
          obtain ⟨-, h2, -⟩ := h <;>
          rw [← h2] <;>
          exact ⟨rfl, .inl rfl⟩

/-- Witness for the amended C4: `register` on an empty store with a fault at
the device commit fails, leaves no device row, and leaves exactly the one
committed user row. -/
theorem rollback_on_failure_witness :
    (⟨[⟨uuidGen 0, "alice", "a@x", "essential", none, none, 0, 0⟩], []⟩
      : DB).devices = (⟨[], []⟩ : DB).devices
    ∧ ((⟨[⟨uuidGen 0, "alice", "a@x", "essential", none, none, 0, 0⟩], []⟩
        : DB).users = (⟨[], []⟩ : DB).users ∨
       ∃ u, (⟨[⟨uuidGen 0, "alice", "a@x", "essential", none, none, 0, 0⟩], []⟩
        : DB).users = (⟨[], []⟩ : DB).users ++ [u]) :=
  (rollback_on_failure "alice" "a@x" "" "" "" ⟨[], []⟩ 0 0 false true).1
    .internalRegister
    ⟨[⟨uuidGen 0, "alice", "a@x", "essential", none, none, 0, 0⟩], []⟩ 3 rfl

/-- Touching a device row preserves the number of device rows. -/
theorem touchList_length (did uid : String) (now : Nat) (l : List DBDevice) :
    (touchList did uid now l).length = l.length := by
  induction l with
  | nil => rfl
  | cons d ds ih =>
    by_cases h : devMatch did uid d = true <;> simp [touchList, h, ih]

/-- Touching a device row changes no user rows. -/
theorem users_touchDB (db : DB) (did uid : String) (now : Nat) :
    (touchDB db did uid now).users = db.users := rfl

/-- Adding a device row changes no user rows. -/
theorem users_addDevice (db : DB) (d : DBDevice) :
    (addDevice db d).users = db.users := rfl

/-- After touching the first row matching a (fingerprint, user) pair, the
same lookup finds that row with `last_used_at` updated. -/
theorem findActiveDevice_touchDB (db : DB) (did uid : String) (now : Nat)
    (d : DBDevice) (h : findActiveDevice db did uid = some d) :
    findActiveDevice (touchDB db did uid now) did uid =
      some { d with last_used_at := now } :=
  find?_touchList did uid now db.devices d h

/-- C6: two sequential fault-free `auto-connect` calls with the same
fingerprint against a store whose first user is `u` both succeed, mint tokens
carrying the same `device_id` claim, leave the device-row count unchanged
between the calls, and leave the resolved device's `last_used_at` at the
first call's time and then the second call's time — non-decreasing. -/
theorem fingerprint_idempotence (f dn1 dt1 dn2 dt2 : String) (db : DB)
    (now1 now2 ctr1 ctr2 : Nat) (u : DBUser)
    (hhead : db.users.head? = some u) (hmono : now1 ≤ now2) :
    ∃ tr1 tr2 db1 db2 c1 c2 dev1 dev2,
      auto_connect f dn1 dt1 db now1 ctr1 false false = (.ok tr1, db1, c1) ∧
      auto_connect f dn2 dt2 db1 now2 ctr2 false false = (.ok tr2, db2, c2) ∧
      tr1.access_token.claims.device_id = tr2.access_token.claims.device_id ∧
      db2.devices.length = db1.devices.length ∧
      findActiveDevice db1 f u.id = some dev1 ∧
      findActiveDevice db2 f u.id = some dev2 ∧
      dev1.last_used_at = now1 ∧ dev2.last_used_at = now2 ∧
      dev1.last_used_at ≤ dev2.last_used_at := by
  rcases hfind : findActiveDevice db f u.id with _ | d0
  · have hfind' : db.devices.find? (devMatch f u.id) = none := hfind
    have hfind1 : findActiveDevice
        (addDevice db ⟨f, dn1, dt1, secretGen ctr1, u.id, true, now1, now1, now1⟩)
        f u.id =
        some ⟨f, dn1, dt1, secretGen ctr1, u.id, true, now1, now1, now1⟩ := by
      unfold findActiveDevice addDevice
      rw [List.find?_append, hfind']
      simp [devMatch]
    refine ⟨⟨create_device_specific_jwt u.id f (secretGen ctr1) now1 none,
             "bearer", userResponseOf u⟩,
            ⟨create_device_specific_jwt u.id f (secretGen ctr1) now2 none,
             "bearer", userResponseOf u⟩,
            addDevice db ⟨f, dn1, dt1, secretGen ctr1, u.id, true, now1, now1, now1⟩,
            touchDB (addDevice db
              ⟨f, dn1, dt1, secretGen ctr1, u.id, true, now1, now1, now1⟩)
              f u.id now2,
            ctr1 + 1, ctr2,
            ⟨f, dn1, dt1, secretGen ctr1, u.id, true, now1, now1, now1⟩,
            ⟨f, dn1, dt1, secretGen ctr1, u.id, true, now2, now1, now1⟩,
            ?_, ?_, rfl, ?_, hfind1, ?_, rfl, rfl, hmono⟩
    · simp [auto_connect, get_or_create_device_for_fingerprint, Session.fresh,
        Session.commit, hhead, hfind]
    · simp [auto_connect, get_or_create_device_for_fingerprint, Session.fresh,
        Session.commit, users_addDevice, hhead, hfind1]
    · exact touchList_length f u.id now2 _
    · exact findActiveDevice_touchDB _ f u.id now2 _ hfind1
  · have hfind1 : findActiveDevice (touchDB db f u.id now1) f u.id =
        some { d0 with last_used_at := now1 } :=
      findActiveDevice_touchDB db f u.id now1 d0 hfind
    refine ⟨⟨create_device_specific_jwt u.id d0.device_id d0.jwt_secret_key
               now1 none, "bearer", userResponseOf u⟩,
            ⟨create_device_specific_jwt u.id d0.device_id d0.jwt_secret_key
               now2 none, "bearer", userResponseOf u⟩,
            touchDB db f u.id now1,
            touchDB (touchDB db f u.id now1) f u.id now2,
            ctr1, ctr2,
            { d0 with last_used_at := now1 },
            { d0 with last_used_at := now2 },
            ?_, ?_, rfl, ?_, hfind1, ?_, rfl, rfl, hmono⟩
    · simp [auto_connect, get_or_create_device_for_fingerprint, Session.fresh,
        Session.commit, hhead, hfind]
    · simp [auto_connect, get_or_create_device_for_fingerprint, Session.fresh,
        Session.commit, users_touchDB, hhead, hfind1]
    · exact touchList_length f u.id now2 _
    · exact findActiveDevice_touchDB _ f u.id now2
        { d0 with last_used_at := now1 } hfind1

/-- Witness for C6: two concrete fault-free `auto-connect` calls with the
same fingerprint on a one-user store. -/
theorem fingerprint_idempotence_witness :
    ∃ tr1 tr2 db1 db2 c1 c2 dev1 dev2,
      auto_connect "f1" "n" "web" ⟨[⟨"u1", "alice", "a@x", "essential",
        none, none, 0, 0⟩], []⟩ 3 7 false false = (.ok tr1, db1, c1) ∧
      auto_connect "f1" "n2" "web" db1 5 9 false false = (.ok tr2, db2, c2) ∧
      tr1.access_token.claims.device_id = tr2.access_token.claims.device_id ∧
      db2.devices.length = db1.devices.length ∧
      findActiveDevice db1 "f1" "u1" = some dev1 ∧
      findActiveDevice db2 "f1" "u1" = some dev2 ∧
      dev1.last_used_at = 3 ∧ dev2.last_used_at = 5 ∧
      dev1.last_used_at ≤ dev2.last_used_at :=
  fingerprint_idempotence "f1" "n" "web" "n2" "web"
    ⟨[⟨"u1", "alice", "a@x", "essential", none, none, 0, 0⟩], []⟩ 3 5 7 9
    ⟨"u1", "alice", "a@x", "essential", none, none, 0, 0⟩ rfl (by decide)

/-- C7: `auto-connect` on an empty store creates exactly one user and one
device; a second `auto-connect` with a different fingerprint creates a second
device owned by that same user and no additional user. -/
theorem provisioning (f1 f2 dn1 dt1 dn2 dt2 : String)
    (now1 now2 ctr1 ctr2 : Nat) (hne : f1 ≠ f2) :
    ∃ tr1 db1 c1 tr2 db2 c2,
      auto_connect f1 dn1 dt1 ⟨[], []⟩ now1 ctr1 false false =
        (.ok tr1, db1, c1) ∧
      db1.users.length = 1 ∧ db1.devices.length = 1 ∧
      auto_connect f2 dn2 dt2 db1 now2 ctr2 false false =
        (.ok tr2, db2, c2) ∧
      db2.users = db1.users ∧ db2.users.length = 1 ∧
      db2.devices.length = 2 ∧
      (∀ d ∈ db2.devices, ∀ usr ∈ db2.users, d.user_id = usr.id) := by
  have hne' : (f1 == f2) = false := by
    simp [hne]
  refine ⟨⟨create_device_specific_jwt (uuidGen ctr1) f1 (secretGen (ctr1 + 1))
             now1 none, "bearer",
           userResponseOf ⟨uuidGen ctr1, "Demo User", "demo@example.com",
             "essential", none, none, now1, now1⟩⟩,
          ⟨[⟨uuidGen ctr1, "Demo User", "demo@example.com", "essential",
             none, none, now1, now1⟩],
           [⟨f1, dn1, dt1, secretGen (ctr1 + 1), uuidGen ctr1, true,
             now1, now1, now1⟩]⟩,
          ctr1 + 2,
          ⟨create_device_specific_jwt (uuidGen ctr1) f2 (secretGen ctr2)
             now2 none, "bearer",
           userResponseOf ⟨uuidGen ctr1, "Demo User", "demo@example.com",
             "essential", none, none, now1, now1⟩⟩,
          ⟨[⟨uuidGen ctr1, "Demo User", "demo@example.com", "essential",
             none, none, now1, now1⟩],
           [⟨f1, dn1, dt1, secretGen (ctr1 + 1), uuidGen ctr1, true,
             now1, now1, now1⟩,
            ⟨f2, dn2, dt2, secretGen ctr2, uuidGen ctr1, true,
             now2, now2, now2⟩]⟩,
          ctr2 + 1,
          rfl, rfl, rfl, ?_, rfl, rfl, rfl, ?_⟩
  · simp [auto_connect, get_or_create_device_for_fingerprint, Session.fresh,
      Session.commit, findActiveDevice, devMatch, addDevice, hne']
  · intro d hd usr husr
    simp only [List.mem_singleton] at husr
    subst husr
    rcases List.mem_cons.mp hd with h | h
    · subst h; rfl
    · simp only [List.mem_singleton] at h
      subst h; rfl

/-- Witness for C7: the concrete two-call scenario with fingerprints
`"abc123"` then `"xyz999"` on an empty store. -/
theorem provisioning_witness :
    ∃ tr1 db1 c1 tr2 db2 c2,
      auto_connect "abc123" "n" "web" ⟨[], []⟩ 1 0 false false =
        (.ok tr1, db1, c1) ∧
      db1.users.length = 1 ∧ db1.devices.length = 1 ∧
      auto_connect "xyz999" "n" "web" db1 2 5 false false =
        (.ok tr2, db2, c2) ∧
      db2.users = db1.users ∧ db2.users.length = 1 ∧
      db2.devices.length = 2 ∧
      (∀ d ∈ db2.devices, ∀ usr ∈ db2.users, d.user_id = usr.id) :=
  provisioning "abc123" "xyz999" "n" "web" "n" "web" 1 2 0 5 (by decide)

/-- Appending one device row owned by `uid` raises that user's device count
by exactly one, whatever the user table holds. -/
theorem countUserDevices_append (usersX : List DBUser) (db : DB)
    (d : DBDevice) (uid : String) (h : d.user_id = uid) :
    countUserDevices ⟨usersX, db.devices ++ [d]⟩ uid =
      countUserDevices db uid + 1 := by
  unfold countUserDevices
  simp [List.filter_append, h]

/-- C9: every successful `register`, `login` on a known email, and
`auto-login` call appends exactly one brand-new device row whose `device_id`
is a freshly drawn server-side UUID (never the client fingerprint, which
these paths do not even receive) with a freshly drawn secret, for an
arbitrary existing device table — no lookup or reuse — raising the owning
user's device count by exactly one. -/
theorem fresh_device_per_call (username email : String) (db : DB)
    (now ctr : Nat) :
    (findUserByEmail db email = none →
      register username email db now ctr false false =
        (.ok ⟨create_device_specific_jwt (uuidGen ctr) (uuidGen (ctr + 1))
                (secretGen (ctr + 2)) now none, "bearer",
              userResponseOf ⟨uuidGen ctr, username, email, "essential",
                none, none, now, now⟩⟩,
         ⟨db.users ++ [⟨uuidGen ctr, username, email, "essential", none, none,
            now, now⟩],
          db.devices ++ [⟨uuidGen (ctr + 1), "Web Browser", "web",
            secretGen (ctr + 2), uuidGen ctr, true, now, now, now⟩]⟩,
         ctr + 3) ∧
      countUserDevices
          ⟨db.users ++ [⟨uuidGen ctr, username, email, "essential", none,
             none, now, now⟩],
           db.devices ++ [⟨uuidGen (ctr + 1), "Web Browser", "web",
             secretGen (ctr + 2), uuidGen ctr, true, now, now, now⟩]⟩
          (uuidGen ctr) =
        countUserDevices db (uuidGen ctr) + 1)
    ∧ (∀ user, findUserByEmail db email = some user →
      login username email db now ctr false false =
        (.ok ⟨create_device_specific_jwt user.id (uuidGen ctr)
                (secretGen (ctr + 1)) now none, "bearer",
              userResponseOf user⟩,
         ⟨db.users, db.devices ++ [⟨uuidGen ctr, "Web Browser", "web",
            secretGen (ctr + 1), user.id, true, now, now, now⟩]⟩,
         ctr + 2) ∧
      countUserDevices
          ⟨db.users, db.devices ++ [⟨uuidGen ctr, "Web Browser", "web",
             secretGen (ctr + 1), user.id, true, now, now, now⟩]⟩ user.id =
        countUserDevices db user.id + 1)
    ∧ (∀ user, db.users.head? = some user →
      auto_login db now ctr false false =
        (.ok ⟨create_device_specific_jwt user.id (uuidGen ctr)
                (secretGen (ctr + 1)) now none, "bearer",
              userResponseOf user⟩,
         ⟨db.users, db.devices ++ [⟨uuidGen ctr, "Web Browser", "web",
            secretGen (ctr + 1), user.id, true, now, now, now⟩]⟩,
         ctr + 2) ∧
      countUserDevices
          ⟨db.users, db.devices ++ [⟨uuidGen ctr, "Web Browser", "web",
             secretGen (ctr + 1), user.id, true, now, now, now⟩]⟩ user.id =
        countUserDevices db user.id + 1)
    ∧ (db.users.head? = none →
      auto_login db now ctr false false =
        (.ok ⟨create_device_specific_jwt (uuidGen ctr) (uuidGen (ctr + 1))
                (secretGen (ctr + 2)) now none, "bearer",
              userResponseOf ⟨uuidGen ctr, "Demo User", "demo@example.com",
                "essential", none, none, now, now⟩⟩,
         ⟨db.users ++ [⟨uuidGen ctr, "Demo User", "demo@example.com",
            "essential", none, none, now, now⟩],
          db.devices ++ [⟨uuidGen (ctr + 1), "Web Browser", "web",
            secretGen (ctr + 2), uuidGen ctr, true, now, now, now⟩]⟩,
         ctr + 3) ∧
      countUserDevices
          ⟨db.users ++ [⟨uuidGen ctr, "Demo User", "demo@example.com",
             "essential", none, none, now, now⟩],
           db.devices ++ [⟨uuidGen (ctr + 1), "Web Browser", "web",
             secretGen (ctr + 2), uuidGen ctr, true, now, now, now⟩]⟩
          (uuidGen ctr) =
        countUserDevices db (uuidGen ctr) + 1) := by
  refine ⟨?_, ?_, ?_, ?_⟩
  · intro hmail
    refine ⟨?_, countUserDevices_append _ db _ _ rfl⟩
    simp [register, Session.fresh, Session.commit, hmail, addUser, addDevice]
  · intro user hmail
    refine ⟨?_, countUserDevices_append _ db _ _ rfl⟩
    simp [login, Session.fresh, Session.commit, hmail, addDevice]
  · intro user hhead
    refine ⟨?_, countUserDevices_append _ db _ _ rfl⟩
    simp [auto_login, Session.fresh, Session.commit, hhead, addDevice]
  · intro hhead
    refine ⟨?_, countUserDevices_append _ db _ _ rfl⟩
    simp [auto_login, Session.fresh, Session.commit, hhead, addUser, addDevice]

/-- Witness for C9: `register` on an empty store appends exactly one
UUID-identified device row for the new user. -/
theorem fresh_device_per_call_witness :
    register "alice" "a@x" ⟨[], []⟩ 0 0 false false =
      (.ok ⟨create_device_specific_jwt (uuidGen 0) (uuidGen 1) (secretGen 2)
              0 none, "bearer",
            userResponseOf ⟨uuidGen 0, "alice", "a@x", "essential", none,
              none, 0, 0⟩⟩,
       ⟨[⟨uuidGen 0, "alice", "a@x", "essential", none, none, 0, 0⟩],
        [⟨uuidGen 1, "Web Browser", "web", secretGen 2, uuidGen 0, true,
          0, 0, 0⟩]⟩, 3) ∧
    countUserDevices
        ⟨[⟨uuidGen 0, "alice", "a@x", "essential", none, none, 0, 0⟩],
         [⟨uuidGen 1, "Web Browser", "web", secretGen 2, uuidGen 0, true,
           0, 0, 0⟩]⟩ (uuidGen 0) =
      countUserDevices ⟨[], []⟩ (uuidGen 0) + 1 :=
  (fresh_device_per_call "alice" "a@x" ⟨[], []⟩ 0 0).1 rfl

end Pentora
